import Mathlib

/-
  Shallow embedding of the invoicenudger reminder pipeline.

  Sources embedded:
  - src/src/lib/email.ts            : formatEmailTemplate, processScheduledReminders
  - src/src/app/api/reminders/process/route.ts : POST trigger
  - src/src/components/reminders/reminder-scheduler.tsx : getFormattedPreview
  - src/unnamed/part_002 (invoice detail view) : single-invoice status reconciler
  - src/unnamed/part_003 (invoice list view)   : list status reconciler

  Modelling conventions:
  - JS Date values (due dates, `now`, scheduled dates) are Int milliseconds
    since the Unix epoch, interpreted at UTC; `new Date(isoString)` parses an
    ISO date to UTC midnight, and both `toLocaleDateString("en-US", {long})`
    and date-fns `format(d, "MMMM d, yyyy")` print "January 1, 2025"-style
    strings, embedded by one shared formatLongDate over the proleptic
    Gregorian calendar.
  - Invoice amounts are exact cents (Nat); JS `amount.toFixed(2)` on such
    values is the "<whole>.<2 digits>" string produced by toFixed2.
  - The supabase store is a List of reminder rows (already joined with their
    invoice/client/template, each of which may be absent - a dangling join).
    `.update(...).eq("id", x)` is updateById.
  - External outcomes are oracles in Env: the users-table lookup, the
    per-reminder success of the SendGrid transport, and the reading of the
    process clock (`new Date()`) taken when a reminder's sent-update is
    issued.  `console.error` calls append to an error log; transport calls
    append to an email log tagged with the reminder id being processed.
-/

namespace InvoiceNudger

inductive InvoiceStatus
  | draft
  | sent
  | partially_paid
  | paid
  | overdue
deriving DecidableEq, Repr

inductive ReminderStatus
  | pending
  | approved
  | sent
  | cancelled
deriving DecidableEq, Repr

structure Client where
  name : String
  email : String
deriving DecidableEq, Repr

structure Invoice where
  id : Nat
  user_id : Nat
  invoice_number : String
  due_date : Int          -- epoch ms of the parsed due date
  amountCents : Nat       -- amount in exact cents
  currency : String
  status : InvoiceStatus
  client : Option Client  -- joined clients row (absent on dangling join)
deriving DecidableEq, Repr

structure MessageTemplate where
  name : String
  subject : String
  body : String
  severity : Nat
deriving DecidableEq, Repr

structure User where
  full_name : Option String
  email : Option String
deriving DecidableEq, Repr

/-- Joined reminder row as returned by the due-reminders query. -/
structure Reminder where
  id : Nat
  status : ReminderStatus
  scheduled_date : Int    -- epoch ms
  sent_at : Option Int    -- epoch ms, none until sent
  invoice : Option Invoice
  template : Option MessageTemplate
deriving DecidableEq, Repr

/- ---------------- Template renderer (formatEmailTemplate) ---------------- -/

/-- `amount.toFixed(2)` over an exact-cents amount. -/
def toFixed2 (cents : Nat) : String :=
  let f := cents % 100
  toString (cents / 100) ++ "." ++ (if f < 10 then "0" ++ toString f else toString f)

def monthName (m : Nat) : String :=
  [ "January", "February", "March", "April", "May", "June", "July",
    "August", "September", "October", "November", "December" ].getD (m - 1) ""

/-- Civil (proleptic Gregorian) date from days since 1970-01-01: (year, month, day). -/
def civilFromDays (z0 : Int) : Int × Nat × Nat :=
  let z := z0 + 719468
  let era := Int.fdiv z 146097
  let doe := (z - era * 146097).toNat
  let yoe := (doe - doe / 1460 + doe / 36524 - doe / 146096) / 365
  let y := (yoe : Int) + era * 400
  let doy := doe - (365 * yoe + yoe / 4 - yoe / 100)
  let mp := (5 * doy + 2) / 153
  let d := doy - (153 * mp + 2) / 5 + 1
  let m := if mp < 10 then mp + 3 else mp - 9
  (if m ≤ 2 then y + 1 else y, m, d)

/-- "MonthName d, yyyy", the common output format of
    `toLocaleDateString("en-US", {year: numeric, month: long, day: numeric})`
    (email.ts) and date-fns `format(d, "MMMM d, yyyy")` (scheduler). -/
def formatLongDate (ms : Int) : String :=
  let c := civilFromDays (Int.fdiv ms 86400000)
  monthName c.2.1 ++ " " ++ toString c.2.2 ++ ", " ++ toString c.1

/-- `Math.floor((today.getTime() - dueDate.getTime()) / 86400000)`. -/
def daysOverdue (due now : Int) : Int := Int.fdiv (now - due) 86400000

/-- `String(daysOverdue > 0 ? daysOverdue : 0)`. -/
def daysOverdueStr (due now : Int) : String :=
  toString (if daysOverdue due now > 0 then daysOverdue due now else 0)

/-- The `replacements` record of formatEmailTemplate (email.ts), in the
    insertion order that `Object.entries` iterates. -/
def replacements (invoice : Invoice) (client : Client) (now : Int) : List (String × String) :=
  [ ("{invoice_number}", invoice.invoice_number),
    ("{amount}", invoice.currency ++ " " ++ toFixed2 invoice.amountCents),
    ("{due_date}", formatLongDate invoice.due_date),
    ("{days_overdue}", daysOverdueStr invoice.due_date now),
    ("{client_name}", client.name),
    ("{user_name}", ""),
    ("{company_name}", "") ]

/-- Does `pat` occur at the start of `s`? -/
def patMatch : List Char → List Char → Bool
  | [], _ => true
  | _ :: _, [] => false
  | p :: ps, c :: cs => p == c && patMatch ps cs

/-- Left-to-right, non-overlapping global replacement of the literal `pat` by
    `rep`, the semantics of JS `s.replace(new RegExp(pat, "g"), rep)` for a
    pattern without effective regex metacharacters.  Structural on a fuel
    bounded by the length of `s` (one unit per consumed character). -/
def replaceFuel (pat rep : List Char) : Nat → List Char → List Char
  | _, [] => []
  | 0, s => s
  | Nat.succ fuel, c :: cs =>
    if patMatch pat (c :: cs) then
      rep ++ replaceFuel pat rep fuel (List.drop pat.length (c :: cs))
    else
      c :: replaceFuel pat rep fuel cs

/-- Global literal replacement on strings; an empty pattern leaves `s`
    unchanged (no token is empty). -/
def replaceAll (s pat rep : String) : String :=
  match pat.data with
  | [] => s
  | _ :: _ => String.mk (replaceFuel pat.data rep.data s.data.length s.data)

/-- Sequential global replacement of each token (the tokens contain no regex
    metacharacters that the JS engine honours, so `new RegExp(key, "g")`
    matches the literal token). -/
def applyReplacements (rs : List (String × String)) (s : String) : String :=
  rs.foldl (fun acc kv => replaceAll acc kv.1 kv.2) s

structure FormattedEmail where
  subject : String
  body : String
deriving DecidableEq, Repr

/-- formatEmailTemplate (email.ts).  Throws ("Missing required data for email
    template") when template, invoice, or invoice.client is absent; the body
    additionally gets `\n` converted to `<br />`. -/
def formatEmailTemplate (template : Option MessageTemplate) (invoice : Option Invoice)
    (now : Int) : Except String FormattedEmail :=
  match template, invoice with
  | some t, some inv =>
    match inv.client with
    | some c =>
      let subject := applyReplacements (replacements inv c now) t.subject
      let body := applyReplacements (replacements inv c now) t.body
      Except.ok { subject := subject, body := replaceAll body "\n" "<br />" }
    | none => Except.error "Missing required data for email template"
  | _, _ => Except.error "Missing required data for email template"

def isErr {ε α : Type} : Except ε α → Bool
  | Except.error _ => true
  | Except.ok _ => false

/- -------- Scheduler preview (reminder-scheduler.tsx, getFormattedPreview) -------- -/

/-- The `replacements` object built inside getFormattedPreview
    (reminder-scheduler.tsx); textually the same table as the processor's. -/
def previewReplacements (invoice : Invoice) (client : Client) (now : Int) :
    List (String × String) :=
  [ ("{invoice_number}", invoice.invoice_number),
    ("{amount}", invoice.currency ++ " " ++ toFixed2 invoice.amountCents),
    ("{due_date}", formatLongDate invoice.due_date),
    ("{days_overdue}", daysOverdueStr invoice.due_date now),
    ("{client_name}", client.name),
    ("{user_name}", ""),
    ("{company_name}", "") ]

/-- getFormattedPreview (reminder-scheduler.tsx): returns the template
    unchanged when the invoice or its client is absent, otherwise the
    template with substituted subject/body and no line-break conversion. -/
def getFormattedPreview (template : MessageTemplate) (invoice : Option Invoice)
    (now : Int) : MessageTemplate :=
  match invoice with
  | none => template
  | some inv =>
    match inv.client with
    | none => template
    | some c =>
      { template with
        subject := applyReplacements (previewReplacements inv c now) template.subject,
        body := applyReplacements (previewReplacements inv c now) template.body }

/- -------- Reminder processor (email.ts, processScheduledReminders) -------- -/

/-- One outbound transport call as handed to sendEmail, tagged (rid) with the
    reminder being processed when the call was made. -/
structure EmailMsg where
  rid : Nat
  recipient : String  -- the `to` field (reserved word in Lean)
  subject : String
  body : String
  fromName : Option String
  replyTo : Option String
deriving DecidableEq, Repr

/-- External oracles of one invocation: the users-table lookup, the transport
    outcome for each reminder id, and the process-clock reading (`new Date()`)
    taken when that reminder's sent-update is issued. -/
structure Env where
  findUser : Nat → Option User
  sendOk : Nat → Bool
  sentClock : Nat → Int

/-- Observable state of an invocation: the reminders table, the transport
    call log, the console.error log, and the ids targeted by reminder-table
    updates (in order of issue). -/
structure PState where
  reminders : List Reminder
  emails : List EmailMsg
  errors : List String
  updates : List Nat
deriving DecidableEq, Repr

/-- `supabase.from("reminders").update(f).eq("id", i)`. -/
def updateById (i : Nat) (f : Reminder → Reminder) (l : List Reminder) : List Reminder :=
  l.map (fun r => if r.id = i then f r else r)

/-- `.update({ status: "cancelled" })`. -/
def setCancelled (r : Reminder) : Reminder := { r with status := ReminderStatus.cancelled }

/-- `.update({ status: "sent", sent_at: new Date().toISOString() })`. -/
def setSent (t : Int) (r : Reminder) : Reminder :=
  { r with status := ReminderStatus.sent, sent_at := some t }

def reminderErrLog (i : Nat) : String := "Error processing reminder " ++ toString i
def sendFailLog (i : Nat) : String := "Failed to send reminder " ++ toString i
def batchErrLog (e : String) : String := "Error processing scheduled reminders: " ++ e

/-- Loop body of processScheduledReminders (email.ts), including its
    per-reminder try/catch:
    - accessing `reminder.invoice.status` on a dangling invoice throws and is
      caught (error logged, nothing else);
    - a paid invoice cancels the reminder;
    - formatEmailTemplate throwing is caught (error logged);
    - otherwise one transport call is made; on success the reminder is set
      sent with a fresh clock reading, on failure only an error is logged. -/
def processReminder (env : Env) (now : Int) (st : PState) (r : Reminder) : PState :=
  match r.invoice with
  | none => { st with errors := st.errors ++ [reminderErrLog r.id] }
  | some inv =>
    if inv.status = InvoiceStatus.paid then
      { st with reminders := updateById r.id setCancelled st.reminders,
                updates := st.updates ++ [r.id] }
    else
      match formatEmailTemplate r.template r.invoice now with
      | Except.error _ => { st with errors := st.errors ++ [reminderErrLog r.id] }
      | Except.ok fmt =>
        match inv.client with
        | none => { st with errors := st.errors ++ [reminderErrLog r.id] }
        | some c =>
          let user := env.findUser inv.user_id
          let msg : EmailMsg :=
            { rid := r.id, recipient := c.email, subject := fmt.subject, body := fmt.body,
              fromName := user.bind (fun u => u.full_name),
              replyTo := user.bind (fun u => u.email) }
          let st1 := { st with emails := st.emails ++ [msg] }
          if env.sendOk r.id then
            { st1 with reminders := updateById r.id (setSent (env.sentClock r.id)) st1.reminders,
                       updates := st1.updates ++ [r.id] }
          else
            { st1 with errors := st1.errors ++ [sendFailLog r.id] }

/-- The due-reminders query filter:
    `.eq("status", "pending").lte("scheduled_date", now.toISOString())`. -/
def isDue (now : Int) (r : Reminder) : Bool :=
  decide (r.status = ReminderStatus.pending) && decide (r.scheduled_date ≤ now)

def dueFilter (now : Int) (db : List Reminder) : List Reminder := db.filter (isDue now)

def initState (db : List Reminder) : PState :=
  { reminders := db, emails := [], errors := [], updates := [] }

/-- processScheduledReminders (email.ts).  `queryError` is the error of the
    initial due-reminders fetch; when present the outer catch logs it and the
    function returns normally without touching any reminder.  Otherwise each
    due reminder is processed in order (the empty due-set early return is the
    same state as folding over an empty list). -/
def processScheduledReminders (env : Env) (now : Int) (queryError : Option String)
    (db : List Reminder) : PState :=
  match queryError with
  | some e => { initState db with errors := [batchErrLog e] }
  | none => (dueFilter now db).foldl (processReminder env now) (initState db)

/- -------- Trigger (route.ts, POST) -------- -/

structure ApiResponse where
  statusCode : Nat
  ok : Bool
deriving DecidableEq, Repr

/-- POST /api/reminders/process (route.ts).  The optional shared secret gates
    the call; processScheduledReminders never throws (its own catch swallows
    the batch error), so the route answers `{ success: true }` whenever the
    key check passes. -/
def POST (secretKey apiKey : Option String) (env : Env) (now : Int)
    (queryError : Option String) (db : List Reminder) : ApiResponse × PState :=
  match secretKey with
  | some s =>
    if apiKey ≠ some s then ({ statusCode := 401, ok := false }, initState db)
    else ({ statusCode := 200, ok := true }, processScheduledReminders env now queryError db)
  | none => ({ statusCode := 200, ok := true }, processScheduledReminders env now queryError db)

/- -------- Status reconcilers (invoice detail part_002, invoice list part_003) -------- -/

/-- Result of a reconciling read: what is returned to the caller and which
    invoice ids had a persistence update (`status := overdue`) attempted. -/
structure ReconResult where
  returned : Invoice
  updatesAttempted : List Nat
deriving DecidableEq, Repr

/-- Invoice-detail queryFn (part_002): for a fetched invoice that is `sent`
    and strictly past due (date-fns isPast), one update to `overdue` is
    attempted, and `data.status` is overridden only when that update did not
    error (`if (!updateError) data.status = "overdue"`). -/
def invoiceDetailQuery (inv : Invoice) (now : Int) (updateOk : Bool) : ReconResult :=
  if inv.status = InvoiceStatus.sent ∧ inv.due_date < now then
    { returned := if updateOk then { inv with status := InvoiceStatus.overdue } else inv,
      updatesAttempted := [inv.id] }
  else
    { returned := inv, updatesAttempted := [] }

/-- The in-memory map step of the invoice-list queryFn (part_003). -/
def overdueOverride (now : Int) (i : Invoice) : Invoice :=
  if i.status = InvoiceStatus.sent ∧ i.due_date < now then
    { i with status := InvoiceStatus.overdue }
  else i

structure ListReconResult where
  returned : List Invoice
  updatesAttempted : List Nat
deriving DecidableEq, Repr

/-- Invoice-list queryFn (part_003): overrides every sent-and-past-due
    invoice in memory, then fires one update per index whose status changed;
    the update results are discarded (the supabase builder resolves with an
    error object instead of rejecting), so the returned list does not depend
    on them - hence no update-outcome parameter. -/
def invoiceListQuery (invs : List Invoice) (now : Int) : ListReconResult :=
  let updated := invs.map (overdueOverride now)
  let changed := (updated.zip invs).filter (fun p => decide (p.1.status ≠ p.2.status))
  { returned := updated, updatesAttempted := changed.map (fun p => p.1.id) }

/-- Reminder lookup by id (first match), used to state which row an
    invocation left behind for a given id. -/
def getById (l : List Reminder) (i : Nat) : Option Reminder :=
  l.find? (fun r => r.id = i)

/- ---------------- Helper lemmas ---------------- -/

theorem updateById_id (i : Nat) (l : List Reminder) : updateById i id l = l := by
  simp [updateById]

theorem getById_updateById_ne (i j : Nat) (f : Reminder → Reminder)
    (hf : ∀ x, (f x).id = x.id) (l : List Reminder) (hij : j ≠ i) :
    getById (updateById j f l) i = getById l i := by
  induction l with
  | nil => rfl
  | cons a l ih =>
    simp only [updateById, List.map_cons, getById, List.find?] at *
    by_cases ha : a.id = j
    · simp [ha, hf a, hij, ih]
    · simp only [if_neg ha]
      by_cases hi : a.id = i
      · simp [hi]
      · simp [hi, ih]

theorem getById_updateById_eq (i : Nat) (f : Reminder → Reminder)
    (hf : ∀ x, (f x).id = x.id) (l : List Reminder) :
    getById (updateById i f l) i = (getById l i).map f := by
  induction l with
  | nil => rfl
  | cons a l ih =>
    simp only [updateById, List.map_cons, getById, List.find?] at *
    by_cases ha : a.id = i
    · simp [ha, hf a]
    · simp [ha, ih]

theorem getById_mem_nodup (l : List Reminder) (r : Reminder) (hmem : r ∈ l)
    (hnd : (l.map (fun x => x.id)).Nodup) : getById l r.id = some r := by
  induction l with
  | nil => cases hmem
  | cons a l ih =>
    rcases List.mem_cons.mp hmem with heq | hmem2
    · subst heq
      simp [getById, List.find?]
    · have hnd2 : a.id ∉ l.map (fun x => x.id) ∧ (l.map (fun x => x.id)).Nodup := by
        rw [List.map_cons, List.nodup_cons] at hnd; exact hnd
      have hane : a.id ≠ r.id := by
        intro h
        exact hnd2.1 (h ▸ List.mem_map_of_mem (fun x => x.id) hmem2)
      simp only [getById, List.find?] at *
      simp [hane, ih hmem2 hnd2.2]

theorem mem_split_ne (l : List Reminder) (r : Reminder) (hmem : r ∈ l)
    (hnd : (l.map (fun x => x.id)).Nodup) :
    ∃ l1 l2, l = l1 ++ r :: l2 ∧ (∀ x ∈ l1, x.id ≠ r.id) ∧ (∀ x ∈ l2, x.id ≠ r.id) := by
  induction l with
  | nil => cases hmem
  | cons a l ih =>
    have hnd2 : a.id ∉ l.map (fun x => x.id) ∧ (l.map (fun x => x.id)).Nodup := by
      rw [List.map_cons, List.nodup_cons] at hnd; exact hnd
    rcases List.mem_cons.mp hmem with heq | hmem2
    · subst heq
      refine ⟨[], l, rfl, by simp, ?_⟩
      intro x hx h
      exact hnd2.1 (h ▸ List.mem_map_of_mem (fun y => y.id) hx)
    · obtain ⟨l1, l2, hl, h1, h2⟩ := ih hmem2 hnd2.2
      refine ⟨a :: l1, l2, by simp [hl], ?_, h2⟩
      intro x hx
      rcases List.mem_cons.mp hx with rfl | hx2
      · intro h
        exact hnd2.1 (h ▸ List.mem_map_of_mem (fun y => y.id) hmem2)
      · exact h1 x hx2

/-- Every run of the loop body lands in one of four shapes: an error-only
    step, a cancellation, a successful send, or a failed send. -/
theorem processReminder_cases (env : Env) (now : Int) (st : PState) (r : Reminder) :
    (∃ e, processReminder env now st r = { st with errors := st.errors ++ [e] }) ∨
    (processReminder env now st r =
      { st with reminders := updateById r.id setCancelled st.reminders,
                updates := st.updates ++ [r.id] }) ∨
    (∃ m, m.rid = r.id ∧ processReminder env now st r =
      { st with emails := st.emails ++ [m],
                reminders := updateById r.id (setSent (env.sentClock r.id)) st.reminders,
                updates := st.updates ++ [r.id] }) ∨
    (∃ m e, m.rid = r.id ∧ processReminder env now st r =
      { st with emails := st.emails ++ [m], errors := st.errors ++ [e] }) := by
  cases hinv : r.invoice with
  | none => exact Or.inl ⟨reminderErrLog r.id, by simp [processReminder, hinv]⟩
  | some inv =>
    by_cases hp : inv.status = InvoiceStatus.paid
    · exact Or.inr (Or.inl (by simp [processReminder, hinv, hp]))
    · cases hfmt : formatEmailTemplate r.template (some inv) now with
      | error e =>
        exact Or.inl ⟨reminderErrLog r.id, by simp [processReminder, hinv, hp, hfmt]⟩
      | ok fmt =>
        cases hc : inv.client with
        | none => exact Or.inl ⟨reminderErrLog r.id, by simp [processReminder, hinv, hp, hfmt, hc]⟩
        | some c =>
          by_cases hs : env.sendOk r.id
          · refine Or.inr (Or.inr (Or.inl
              ⟨{ rid := r.id, recipient := c.email, subject := fmt.subject, body := fmt.body,
                 fromName := (env.findUser inv.user_id).bind (fun u => u.full_name),
                 replyTo := (env.findUser inv.user_id).bind (fun u => u.email) }, rfl, ?_⟩))
            simp [processReminder, hinv, hp, hfmt, hc, hs]
          · refine Or.inr (Or.inr (Or.inr
              ⟨{ rid := r.id, recipient := c.email, subject := fmt.subject, body := fmt.body,
                 fromName := (env.findUser inv.user_id).bind (fun u => u.full_name),
                 replyTo := (env.findUser inv.user_id).bind (fun u => u.email) },
               sendFailLog r.id, rfl, ?_⟩))
            simp [processReminder, hinv, hp, hfmt, hc, hs]

end InvoiceNudger

namespace InvoiceNudger

theorem getById_processReminder_ne (env : Env) (now : Int) (st : PState) (r : Reminder)
    (i : Nat) (hne : r.id ≠ i) :
    getById (processReminder env now st r).reminders i = getById st.reminders i := by
  rcases processReminder_cases env now st r with ⟨e, h⟩ | h | ⟨m, hm, h⟩ | ⟨m, e, hm, h⟩ <;>
    rw [h]
  · exact getById_updateById_ne i r.id setCancelled (fun x => rfl) st.reminders hne
  · exact getById_updateById_ne i r.id (setSent (env.sentClock r.id)) (fun x => rfl)
      st.reminders hne

theorem emails_processReminder_ne (env : Env) (now : Int) (st : PState) (r : Reminder)
    (i : Nat) (hne : r.id ≠ i) :
    (processReminder env now st r).emails.filter (fun m => decide (m.rid = i)) =
      st.emails.filter (fun m => decide (m.rid = i)) := by
  rcases processReminder_cases env now st r with ⟨e, h⟩ | h | ⟨m, hm, h⟩ | ⟨m, e, hm, h⟩ <;>
    rw [h]
  · simp [List.filter_append, hm, hne]
  · simp [List.filter_append, hm, hne]

theorem updates_processReminder_sub (env : Env) (now : Int) (st : PState) (r : Reminder) :
    ∀ u ∈ (processReminder env now st r).updates, u ∈ st.updates ∨ u = r.id := by
  rcases processReminder_cases env now st r with ⟨e, h⟩ | h | ⟨m, hm, h⟩ | ⟨m, e, hm, h⟩ <;>
    rw [h] <;> intro u hu
  · exact Or.inl hu
  · simpa using List.mem_append.mp hu
  · simpa using List.mem_append.mp hu
  · exact Or.inl hu

theorem foldl_frame_ne (env : Env) (now : Int) (l : List Reminder) (st : PState) (i : Nat)
    (h : ∀ x ∈ l, x.id ≠ i) :
    getById ((l.foldl (processReminder env now) st)).reminders i = getById st.reminders i ∧
    (l.foldl (processReminder env now) st).emails.filter (fun m => decide (m.rid = i)) =
      st.emails.filter (fun m => decide (m.rid = i)) := by
  induction l generalizing st with
  | nil => exact ⟨rfl, rfl⟩
  | cons a l ih =>
    simp only [List.foldl_cons]
    have ha : a.id ≠ i := h a (List.mem_cons_self a l)
    obtain ⟨h1, h2⟩ := ih (processReminder env now st a)
      (fun x hx => h x (List.mem_cons_of_mem a hx))
    exact ⟨h1.trans (getById_processReminder_ne env now st a i ha),
           h2.trans (emails_processReminder_ne env now st a i ha)⟩

theorem foldl_updates_sub (env : Env) (now : Int) (l : List Reminder) (st : PState) :
    ∀ u ∈ (l.foldl (processReminder env now) st).updates,
      u ∈ st.updates ∨ ∃ x ∈ l, u = x.id := by
  induction l generalizing st with
  | nil => exact fun u hu => Or.inl hu
  | cons a l ih =>
    intro u hu
    simp only [List.foldl_cons] at hu
    rcases ih (processReminder env now st a) u hu with h1 | ⟨x, hx, hex⟩
    · rcases updates_processReminder_sub env now st a u h1 with h2 | h2
      · exact Or.inl h2
      · exact Or.inr ⟨a, List.mem_cons_self a l, h2⟩
    · exact Or.inr ⟨x, List.mem_cons_of_mem a hx, hex⟩

/-- The due ids of a store with pairwise-distinct row ids are pairwise
    distinct. -/
theorem due_ids_nodup (now : Int) (db : List Reminder)
    (hnd : (db.map (fun x => x.id)).Nodup) :
    ((dueFilter now db).map (fun x => x.id)).Nodup :=
  hnd.sublist (List.Sublist.map (fun x => x.id) (List.filter_sublist db))

/-- Master lemma: how one invocation treats a due reminder `r` whose loop
    body acts as `F` on its row and emits exactly the transport calls `E`. -/
theorem processScheduled_at_due (env : Env) (now : Int) (db : List Reminder) (r : Reminder)
    (hnd : (db.map (fun x => x.id)).Nodup)
    (hmem : r ∈ dueFilter now db)
    (F : Reminder → Reminder) (E : List EmailMsg)
    (hF : ∀ x, (F x).id = x.id)
    (hstep : ∀ st, (processReminder env now st r).reminders = updateById r.id F st.reminders ∧
                   (processReminder env now st r).emails = st.emails ++ E)
    (hE : ∀ m ∈ E, m.rid = r.id) :
    getById (processScheduledReminders env now none db).reminders r.id = some (F r) ∧
    (processScheduledReminders env now none db).emails.filter
      (fun m => decide (m.rid = r.id)) = E := by
  have hdnd := due_ids_nodup now db hnd
  obtain ⟨l1, l2, hsplit, h1, h2⟩ := mem_split_ne (dueFilter now db) r hmem hdnd
  have hrdb : r ∈ db := List.mem_of_mem_filter hmem
  have hmain : processScheduledReminders env now none db =
      l2.foldl (processReminder env now)
        (processReminder env now (l1.foldl (processReminder env now) (initState db)) r) := by
    simp [processScheduledReminders, hsplit, List.foldl_append]
  set st1 := l1.foldl (processReminder env now) (initState db) with hst1
  obtain ⟨hr1, he1⟩ := foldl_frame_ne env now l1 (initState db) r.id
    (fun x hx h => h1 x hx h)
  obtain ⟨hsr, hse⟩ := hstep st1
  obtain ⟨hr2, he2⟩ := foldl_frame_ne env now l2 (processReminder env now st1 r) r.id
    (fun x hx h => h2 x hx h)
  constructor
  · rw [hmain, hr2, hsr, getById_updateById_eq r.id F hF st1.reminders, hr1]
    have : getById db r.id = some r := getById_mem_nodup db r hrdb hnd
    simp only [initState] at *
    rw [this]
    rfl
  · rw [hmain, he2, hse, List.filter_append, he1]
    have hEfilter : E.filter (fun m => decide (m.rid = r.id)) = E := by
      apply List.filter_eq_self.mpr
      intro m hm
      simp [hE m hm]
    simp only [initState, List.filter_nil, List.nil_append] at *
    rw [hEfilter]

end InvoiceNudger

namespace InvoiceNudger

/-- The transport payload the loop hands to sendEmail for a payable reminder. -/
def sentMsg (env : Env) (now : Int) (r : Reminder) (inv : Invoice)
    (t : MessageTemplate) (c : Client) : EmailMsg :=
  { rid := r.id, recipient := c.email,
    subject := applyReplacements (replacements inv c now) t.subject,
    body := replaceAll (applyReplacements (replacements inv c now) t.body) "\n" "<br />",
    fromName := (env.findUser inv.user_id).bind (fun u => u.full_name),
    replyTo := (env.findUser inv.user_id).bind (fun u => u.email) }

theorem step_paid (env : Env) (now : Int) (st : PState) (r : Reminder) (inv : Invoice)
    (hinv : r.invoice = some inv) (hp : inv.status = InvoiceStatus.paid) :
    processReminder env now st r =
      { st with reminders := updateById r.id setCancelled st.reminders,
                updates := st.updates ++ [r.id] } := by
  simp [processReminder, hinv, hp]

theorem step_sendOk (env : Env) (now : Int) (st : PState) (r : Reminder) (inv : Invoice)
    (t : MessageTemplate) (c : Client)
    (hinv : r.invoice = some inv) (hp : inv.status ≠ InvoiceStatus.paid)
    (ht : r.template = some t) (hc : inv.client = some c)
    (hs : env.sendOk r.id = true) :
    processReminder env now st r =
      { st with emails := st.emails ++ [sentMsg env now r inv t c],
                reminders := updateById r.id (setSent (env.sentClock r.id)) st.reminders,
                updates := st.updates ++ [r.id] } := by
  simp [processReminder, hinv, hp, ht, hc, hs, formatEmailTemplate, sentMsg]

theorem step_sendFail (env : Env) (now : Int) (st : PState) (r : Reminder) (inv : Invoice)
    (t : MessageTemplate) (c : Client)
    (hinv : r.invoice = some inv) (hp : inv.status ≠ InvoiceStatus.paid)
    (ht : r.template = some t) (hc : inv.client = some c)
    (hs : env.sendOk r.id = false) :
    processReminder env now st r =
      { st with emails := st.emails ++ [sentMsg env now r inv t c],
                errors := st.errors ++ [sendFailLog r.id] } := by
  simp [processReminder, hinv, hp, ht, hc, hs, formatEmailTemplate, sentMsg]

theorem step_fmtError (env : Env) (now : Int) (st : PState) (r : Reminder) (inv : Invoice)
    (e : String)
    (hinv : r.invoice = some inv) (hp : inv.status ≠ InvoiceStatus.paid)
    (hfmt : formatEmailTemplate r.template (some inv) now = Except.error e) :
    processReminder env now st r =
      { st with errors := st.errors ++ [reminderErrLog r.id] } := by
  simp [processReminder, hinv, hp, hfmt]

/-- A due reminder of a paid invoice ends cancelled with no transport call. -/
theorem paid_due_final (env : Env) (now : Int) (db : List Reminder) (r : Reminder)
    (inv : Invoice)
    (hnd : (db.map (fun x => x.id)).Nodup)
    (hmem : r ∈ dueFilter now db)
    (hinv : r.invoice = some inv) (hpaid : inv.status = InvoiceStatus.paid) :
    getById (processScheduledReminders env now none db).reminders r.id =
      some { r with status := ReminderStatus.cancelled } ∧
    (processScheduledReminders env now none db).emails.filter
      (fun m => decide (m.rid = r.id)) = [] := by
  have h := processScheduled_at_due env now db r hnd hmem setCancelled []
    (fun x => rfl)
    (fun st => by rw [step_paid env now st r inv hinv hpaid]; exact ⟨rfl, by simp⟩)
    (fun m hm => by cases hm)
  exact ⟨h.1, h.2⟩

/-- A due, payable reminder with a successful transport call ends sent, with
    sent_at the clock reading taken at its update, and exactly one call. -/
theorem sendOk_due_final (env : Env) (now : Int) (db : List Reminder) (r : Reminder)
    (inv : Invoice) (t : MessageTemplate) (c : Client)
    (hnd : (db.map (fun x => x.id)).Nodup)
    (hmem : r ∈ dueFilter now db)
    (hinv : r.invoice = some inv) (hp : inv.status ≠ InvoiceStatus.paid)
    (ht : r.template = some t) (hc : inv.client = some c)
    (hs : env.sendOk r.id = true) :
    getById (processScheduledReminders env now none db).reminders r.id =
      some { r with status := ReminderStatus.sent, sent_at := some (env.sentClock r.id) } ∧
    (processScheduledReminders env now none db).emails.filter
      (fun m => decide (m.rid = r.id)) = [sentMsg env now r inv t c] := by
  have h := processScheduled_at_due env now db r hnd hmem
    (setSent (env.sentClock r.id)) [sentMsg env now r inv t c]
    (fun x => rfl)
    (fun st => by rw [step_sendOk env now st r inv t c hinv hp ht hc hs]; exact ⟨rfl, rfl⟩)
    (fun m hm => by rcases List.mem_singleton.mp hm with rfl; rfl)
  exact ⟨h.1, h.2⟩

/-- A due, payable reminder with a failed transport call is left untouched
    (still pending) after exactly one transport call. -/
theorem sendFail_due_final (env : Env) (now : Int) (db : List Reminder) (r : Reminder)
    (inv : Invoice) (t : MessageTemplate) (c : Client)
    (hnd : (db.map (fun x => x.id)).Nodup)
    (hmem : r ∈ dueFilter now db)
    (hinv : r.invoice = some inv) (hp : inv.status ≠ InvoiceStatus.paid)
    (ht : r.template = some t) (hc : inv.client = some c)
    (hs : env.sendOk r.id = false) :
    getById (processScheduledReminders env now none db).reminders r.id = some r ∧
    (processScheduledReminders env now none db).emails.filter
      (fun m => decide (m.rid = r.id)) = [sentMsg env now r inv t c] := by
  have h := processScheduled_at_due env now db r hnd hmem id [sentMsg env now r inv t c]
    (fun x => rfl)
    (fun st => by
      rw [step_sendFail env now st r inv t c hinv hp ht hc hs, updateById_id]
      exact ⟨rfl, rfl⟩)
    (fun m hm => by rcases List.mem_singleton.mp hm with rfl; rfl)
  exact ⟨h.1, h.2⟩

/-- A due reminder whose rendering throws is left untouched with no call. -/
theorem fmtError_due_final (env : Env) (now : Int) (db : List Reminder) (r : Reminder)
    (inv : Invoice) (e : String)
    (hnd : (db.map (fun x => x.id)).Nodup)
    (hmem : r ∈ dueFilter now db)
    (hinv : r.invoice = some inv) (hp : inv.status ≠ InvoiceStatus.paid)
    (hfmt : formatEmailTemplate r.template (some inv) now = Except.error e) :
    getById (processScheduledReminders env now none db).reminders r.id = some r ∧
    (processScheduledReminders env now none db).emails.filter
      (fun m => decide (m.rid = r.id)) = [] := by
  have h := processScheduled_at_due env now db r hnd hmem id []
    (fun x => rfl)
    (fun st => by
      rw [step_fmtError env now st r inv e hinv hp hfmt, updateById_id]
      exact ⟨rfl, by simp⟩)
    (fun m hm => by cases hm)
  exact ⟨h.1, h.2⟩

end InvoiceNudger

namespace InvoiceNudger

/- ---------------- Concrete fixtures for witnesses ---------------- -/

def wClient : Client := { name := "Acme", email := "billing@acme.test" }

def wInvPaid : Invoice :=
  { id := 10, user_id := 1, invoice_number := "INV-010", due_date := 0,
    amountCents := 12500, currency := "USD", status := InvoiceStatus.paid,
    client := some wClient }

def wInvOpen : Invoice :=
  { id := 11, user_id := 1, invoice_number := "INV-011", due_date := 0,
    amountCents := 20000, currency := "USD", status := InvoiceStatus.sent,
    client := some wClient }

def wTemplate : MessageTemplate :=
  { name := "gentle", subject := "Invoice {invoice_number}",
    body := "Hi {client_name},\nplease pay {amount}.", severity := 1 }

def wRemPaid : Reminder :=
  { id := 1, status := ReminderStatus.pending, scheduled_date := 0, sent_at := none,
    invoice := some wInvPaid, template := some wTemplate }

def wRemOpen : Reminder :=
  { id := 2, status := ReminderStatus.pending, scheduled_date := 0, sent_at := none,
    invoice := some wInvOpen, template := some wTemplate }

def wRemNoTemplate : Reminder :=
  { id := 3, status := ReminderStatus.pending, scheduled_date := 0, sent_at := none,
    invoice := some wInvOpen, template := none }

def wRemLate : Reminder :=
  { id := 4, status := ReminderStatus.pending, scheduled_date := 100, sent_at := none,
    invoice := some wInvOpen, template := some wTemplate }

def wEnvOk : Env :=
  { findUser := fun _ => none, sendOk := fun _ => true, sentClock := fun _ => 7 }

def wEnvFail : Env :=
  { findUser := fun _ => none, sendOk := fun _ => false, sentClock := fun _ => 7 }

/- ---------------- Claim theorems ---------------- -/

/-- C1: every due reminder whose joined invoice is paid is transitioned to
    cancelled by the invocation, its sent_at stays unset, and no transport
    call is made for it. -/
theorem C1_paid_invoice_cancels_reminder (env : Env) (now : Int) (db : List Reminder)
    (r : Reminder) (inv : Invoice)
    (hnd : (db.map (fun x => x.id)).Nodup)
    (hmem : r ∈ dueFilter now db)
    (hinv : r.invoice = some inv)
    (hpaid : inv.status = InvoiceStatus.paid)
    (hsa : r.sent_at = none) :
    getById (processScheduledReminders env now none db).reminders r.id =
      some { r with status := ReminderStatus.cancelled } ∧
    ({ r with status := ReminderStatus.cancelled } : Reminder).sent_at = none ∧
    (processScheduledReminders env now none db).emails.filter
      (fun m => decide (m.rid = r.id)) = [] := by
  obtain ⟨h1, h2⟩ := paid_due_final env now db r inv hnd hmem hinv hpaid
  exact ⟨h1, by simpa using hsa, h2⟩

theorem C1_witness :
    getById (processScheduledReminders wEnvOk 0 none [wRemPaid, wRemOpen]).reminders
        wRemPaid.id = some { wRemPaid with status := ReminderStatus.cancelled } ∧
    ({ wRemPaid with status := ReminderStatus.cancelled } : Reminder).sent_at = none ∧
    (processScheduledReminders wEnvOk 0 none [wRemPaid, wRemOpen]).emails.filter
      (fun m => decide (m.rid = wRemPaid.id)) = [] :=
  C1_paid_invoice_cancels_reminder wEnvOk 0 [wRemPaid, wRemOpen] wRemPaid wInvPaid
    (by decide) (by decide) (by decide) (by decide) (by decide)

/-- C2 counterexample: with invocation time `now = 0` but a process clock
    that reads 5 when the sent-update is issued, the stored sent_at is 5,
    not the invocation time 0. -/
theorem C2_counterexample :
    ((getById (processScheduledReminders
          { findUser := fun _ => none, sendOk := fun _ => true, sentClock := fun _ => 5 }
          0 none [wRemOpen]).reminders wRemOpen.id).map (fun x => x.sent_at)) =
        some (some 5) ∧
    some (some (5 : Int)) ≠ some (some (0 : Int)) := by
  decide

/-- C2 (amended): for a due, payable reminder whose transport call succeeds,
    the invocation sets its row to sent with sent_at the process-clock
    reading taken when its update is issued (not necessarily the invocation
    time), and exactly one transport call is made for it. -/
theorem C2_success_marks_sent (env : Env) (now : Int) (db : List Reminder)
    (r : Reminder) (inv : Invoice) (t : MessageTemplate) (c : Client)
    (hnd : (db.map (fun x => x.id)).Nodup)
    (hmem : r ∈ dueFilter now db)
    (hinv : r.invoice = some inv) (hp : inv.status ≠ InvoiceStatus.paid)
    (ht : r.template = some t) (hc : inv.client = some c)
    (hs : env.sendOk r.id = true) :
    getById (processScheduledReminders env now none db).reminders r.id =
      some { r with status := ReminderStatus.sent, sent_at := some (env.sentClock r.id) } ∧
    ((processScheduledReminders env now none db).emails.filter
      (fun m => decide (m.rid = r.id))).length = 1 := by
  obtain ⟨h1, h2⟩ := sendOk_due_final env now db r inv t c hnd hmem hinv hp ht hc hs
  exact ⟨h1, by rw [h2]; rfl⟩

theorem C2_witness :
    getById (processScheduledReminders wEnvOk 0 none [wRemPaid, wRemOpen]).reminders
        wRemOpen.id =
      some { wRemOpen with status := ReminderStatus.sent,
                           sent_at := some (wEnvOk.sentClock wRemOpen.id) } ∧
    ((processScheduledReminders wEnvOk 0 none [wRemPaid, wRemOpen]).emails.filter
      (fun m => decide (m.rid = wRemOpen.id))).length = 1 :=
  C2_success_marks_sent wEnvOk 0 [wRemPaid, wRemOpen] wRemOpen wInvOpen wTemplate wClient
    (by decide) (by decide) (by decide) (by decide) (by decide) (by decide) (by decide)

/-- C3: a due, payable reminder whose transport call fails is left entirely
    unchanged (still pending, sent_at untouched), is due again in any later
    invocation, and the failure does not stop the rest of the batch (any
    other due reminder of a paid invoice still ends cancelled). -/
theorem C3_failure_leaves_pending (env : Env) (now : Int) (db : List Reminder)
    (r : Reminder) (inv : Invoice) (t : MessageTemplate) (c : Client)
    (hnd : (db.map (fun x => x.id)).Nodup)
    (hmem : r ∈ dueFilter now db)
    (hinv : r.invoice = some inv) (hp : inv.status ≠ InvoiceStatus.paid)
    (ht : r.template = some t) (hc : inv.client = some c)
    (hs : env.sendOk r.id = false) :
    getById (processScheduledReminders env now none db).reminders r.id = some r ∧
    r.status = ReminderStatus.pending ∧
    (∀ now2 : Int, r.scheduled_date ≤ now2 →
      r ∈ dueFilter now2 (processScheduledReminders env now none db).reminders) ∧
    (∀ r2 inv2, r2 ∈ dueFilter now db → r2.invoice = some inv2 →
      inv2.status = InvoiceStatus.paid →
      getById (processScheduledReminders env now none db).reminders r2.id =
        some { r2 with status := ReminderStatus.cancelled }) := by
  obtain ⟨h1, _h2⟩ := sendFail_due_final env now db r inv t c hnd hmem hinv hp ht hc hs
  obtain ⟨hrdb, hdue⟩ := List.mem_filter.mp hmem
  have hpend : r.status = ReminderStatus.pending := by
    simp [isDue] at hdue; exact hdue.1
  refine ⟨h1, hpend, ?_, ?_⟩
  · intro now2 hn2
    refine List.mem_filter.mpr ⟨List.mem_of_find?_eq_some h1, ?_⟩
    simp [isDue, hpend, hn2]
  · intro r2 inv2 hmem2 hinv2 hpaid2
    exact (paid_due_final env now db r2 inv2 hnd hmem2 hinv2 hpaid2).1

theorem C3_witness :
    getById (processScheduledReminders wEnvFail 0 none [wRemPaid, wRemOpen]).reminders
        wRemOpen.id = some wRemOpen ∧
    wRemOpen.status = ReminderStatus.pending ∧
    wRemOpen ∈ dueFilter 50
      (processScheduledReminders wEnvFail 0 none [wRemPaid, wRemOpen]).reminders ∧
    getById (processScheduledReminders wEnvFail 0 none [wRemPaid, wRemOpen]).reminders
        wRemPaid.id = some { wRemPaid with status := ReminderStatus.cancelled } := by
  have h := C3_failure_leaves_pending wEnvFail 0 [wRemPaid, wRemOpen] wRemOpen wInvOpen
    wTemplate wClient (by decide) (by decide) (by decide) (by decide) (by decide)
    (by decide) (by decide)
  exact ⟨h.1, h.2.1, h.2.2.1 50 (by decide), h.2.2.2 wRemPaid wInvPaid (by decide)
    (by decide) (by decide)⟩

/-- C4 counterexample: a failing initial query is swallowed inside
    processScheduledReminders (only logged); the trigger route answers
    HTTP 200 `{ success: true }`, i.e. it reports success, not failure. -/
theorem C4_counterexample :
    processScheduledReminders wEnvOk 0 (some "db down") [wRemPaid] =
      { reminders := [wRemPaid], emails := [],
        errors := [batchErrLog "db down"], updates := [] } ∧
    (POST none none wEnvOk 0 (some "db down") [wRemPaid]).1 =
      { statusCode := 200, ok := true } := by
  decide

/-- C4 (amended): when the initial due-reminder query fails, no per-reminder
    processing happens and no reminder update is issued, but the error does
    not propagate: it is caught and logged inside processScheduledReminders,
    and the POST trigger reports success. -/
theorem C4_query_failure_no_processing (env : Env) (now : Int) (e : String)
    (db : List Reminder) :
    processScheduledReminders env now (some e) db =
      { reminders := db, emails := [], errors := [batchErrLog e], updates := [] } ∧
    (POST none none env now (some e) db).1 = { statusCode := 200, ok := true } ∧
    (∀ s : String, (POST (some s) (some s) env now (some e) db).1 =
      { statusCode := 200, ok := true }) := by
  refine ⟨rfl, rfl, ?_⟩
  intro s
  simp [POST, processScheduledReminders]

end InvoiceNudger

namespace InvoiceNudger

/-- Update targets of the list reconciler: exactly the fetched invoices that
    are sent and strictly past due, one update per such row. -/
theorem invoiceListQuery_updates (invs : List Invoice) (now : Int) :
    (invoiceListQuery invs now).updatesAttempted =
      (invs.filter (fun i => decide (i.status = InvoiceStatus.sent ∧ i.due_date < now))).map
        (fun i => i.id) := by
  induction invs with
  | nil => rfl
  | cons a l ih =>
    by_cases ha : a.status = InvoiceStatus.sent ∧ a.due_date < now
    · have hne : ({ a with status := InvoiceStatus.overdue } : Invoice).status ≠ a.status := by
        simp [ha.1]
      have hov : overdueOverride now a = { a with status := InvoiceStatus.overdue } := by
        simp [overdueOverride, ha]
      simp only [invoiceListQuery, List.map_cons, List.zip_cons_cons, List.filter_cons, hov]
      simp only [invoiceListQuery] at ih
      simp [hne, ha]
      simpa using ih
    · have hov : overdueOverride now a = a := by
        simp [overdueOverride, ha]
      simp only [invoiceListQuery, List.map_cons, List.zip_cons_cons, List.filter_cons, hov]
      simp only [invoiceListQuery] at ih
      simp [ha]
      simpa using ih

def wInvSentPastNC : Invoice :=
  { id := 21, user_id := 1, invoice_number := "INV-021", due_date := 0,
    amountCents := 100, currency := "USD", status := InvoiceStatus.sent,
    client := none }

/-- C5 counterexample: detail-view reconciler with a failing persistence
    update returns the invoice still as `sent` - the in-memory override the
    claim promises is not applied when the write fails. -/
theorem C5_counterexample :
    (invoiceDetailQuery wInvSentPastNC 1 false).returned.status = InvoiceStatus.sent ∧
    InvoiceStatus.sent ≠ InvoiceStatus.overdue ∧
    (invoiceDetailQuery wInvSentPastNC 1 false).updatesAttempted = [wInvSentPastNC.id] := by
  decide

/-- C5 (amended): for a fetched invoice that is sent and strictly past due,
    both reconcilers attempt exactly one persistence update to overdue and
    neither fails the read; the list view returns the invoice with status
    overridden to overdue regardless of the write's outcome, while the detail
    view applies the override only when the write succeeds and returns the
    invoice unchanged when it fails. -/
theorem C5_reconciler_behaviour (inv : Invoice) (now : Int)
    (hs : inv.status = InvoiceStatus.sent) (hd : inv.due_date < now) :
    (invoiceDetailQuery inv now true).returned = { inv with status := InvoiceStatus.overdue } ∧
    (invoiceDetailQuery inv now false).returned = inv ∧
    (∀ u : Bool, (invoiceDetailQuery inv now u).updatesAttempted = [inv.id]) ∧
    (∀ invs : List Invoice,
      (invoiceListQuery invs now).returned = invs.map (overdueOverride now)) ∧
    overdueOverride now inv = { inv with status := InvoiceStatus.overdue } ∧
    (∀ invs : List Invoice,
      (invoiceListQuery invs now).updatesAttempted =
        (invs.filter (fun i => decide (i.status = InvoiceStatus.sent ∧ i.due_date < now))).map
          (fun i => i.id)) := by
  refine ⟨?_, ?_, ?_, ?_, ?_, ?_⟩
  · simp [invoiceDetailQuery, hs, hd]
  · simp [invoiceDetailQuery, hs, hd]
  · intro u; simp [invoiceDetailQuery, hs, hd]
  · intro invs; rfl
  · simp [overdueOverride, hs, hd]
  · intro invs; exact invoiceListQuery_updates invs now

theorem C5_witness :
    (invoiceDetailQuery wInvSentPastNC 1 true).returned =
      { wInvSentPastNC with status := InvoiceStatus.overdue } ∧
    (invoiceDetailQuery wInvSentPastNC 1 false).returned = wInvSentPastNC ∧
    (invoiceDetailQuery wInvSentPastNC 1 true).updatesAttempted = [wInvSentPastNC.id] ∧
    (invoiceListQuery [wInvSentPastNC, wInvPaid] 1).returned =
      [wInvSentPastNC, wInvPaid].map (overdueOverride 1) ∧
    overdueOverride 1 wInvSentPastNC = { wInvSentPastNC with status := InvoiceStatus.overdue } ∧
    (invoiceListQuery [wInvSentPastNC, wInvPaid] 1).updatesAttempted =
      ([wInvSentPastNC, wInvPaid].filter
        (fun i => decide (i.status = InvoiceStatus.sent ∧ i.due_date < 1))).map
        (fun i => i.id) := by
  have h := C5_reconciler_behaviour wInvSentPastNC 1 (by decide) (by decide)
  exact ⟨h.1, h.2.1, h.2.2.1 true, h.2.2.2.1 [wInvSentPastNC, wInvPaid],
    h.2.2.2.2.1, h.2.2.2.2.2 [wInvSentPastNC, wInvPaid]⟩

/- ---------------- C6: the concrete rendering scenario ---------------- -/

def c6Client : Client := { name := "Acme", email := "acme@example.test" }

/-- Invoice number INV-001, amount 150.00 USD, due 2025-01-01 (epoch ms). -/
def c6Invoice : Invoice :=
  { id := 31, user_id := 1, invoice_number := "INV-001", due_date := 1735689600000,
    amountCents := 15000, currency := "USD", status := InvoiceStatus.sent,
    client := some c6Client }

def c6Template : MessageTemplate :=
  { name := "scenario",
    subject := "{client_name}, invoice {invoice_number} for {amount} was due {due_date} ({days_overdue} days overdue)",
    body := "{client_name}, invoice {invoice_number} for {amount} was due {due_date} ({days_overdue} days overdue)",
    severity := 1 }

/-- C6: the scenario template rendered against INV-001 (150.00 USD, due
    2025-01-01, client Acme) at now = 2025-01-10 produces exactly
    "Acme, invoice INV-001 for USD 150.00 was due January 1, 2025 (9 days
    overdue)". -/
theorem C6_scenario_rendering :
    formatEmailTemplate (some c6Template) (some c6Invoice) 1736467200000 =
      Except.ok
        { subject := "Acme, invoice INV-001 for USD 150.00 was due January 1, 2025 (9 days overdue)",
          body := "Acme, invoice INV-001 for USD 150.00 was due January 1, 2025 (9 days overdue)" } := by
  have h : (formatEmailTemplate (some c6Template) (some c6Invoice) 1736467200000).toOption =
      some ({ subject := "Acme, invoice INV-001 for USD 150.00 was due January 1, 2025 (9 days overdue)",
              body := "Acme, invoice INV-001 for USD 150.00 was due January 1, 2025 (9 days overdue)" } :
            FormattedEmail) := by decide
  revert h
  cases formatEmailTemplate (some c6Template) (some c6Invoice) 1736467200000 with
  | error e => intro h; simp [Except.toOption] at h
  | ok v => intro h; simp only [Except.toOption, Option.some.injEq] at h; rw [h]

/- ---------------- C7: the days_overdue token ---------------- -/

theorem daysOverdueStr_spec (due now : Int) :
    daysOverdueStr due now = toString (max 0 (Int.fdiv (now - due) 86400000)) := by
  unfold daysOverdueStr daysOverdue
  congr 1
  rcases le_or_lt (Int.fdiv (now - due) 86400000) 0 with h | h
  · rw [if_neg (not_lt.mpr h), max_eq_left h]
  · rw [if_pos h, max_eq_right (le_of_lt h)]

theorem daysOverdueStr_future (due now : Int) (h : now < due) :
    daysOverdueStr due now = "0" := by
  have hneg : daysOverdue due now < 0 := by
    unfold daysOverdue
    exact Int.fdiv_neg' (by omega) (by norm_num)
  unfold daysOverdueStr
  rw [if_neg (by omega)]
  decide

/-- C7: the value substituted for the {days_overdue} token equals
    max(0, floor((now - due_date) / one day)); with a future due date it is
    "0", and it is never negative. -/
theorem C7_days_overdue_token (inv : Invoice) (c : Client) (now : Int) :
    (replacements inv c now).lookup "{days_overdue}" =
      some (toString (max 0 (Int.fdiv (now - inv.due_date) 86400000))) ∧
    (now < inv.due_date → (replacements inv c now).lookup "{days_overdue}" = some "0") ∧
    (0 : Int) ≤ max 0 (Int.fdiv (now - inv.due_date) 86400000) := by
  have hl : (replacements inv c now).lookup "{days_overdue}" =
      some (daysOverdueStr inv.due_date now) := by
    simp [replacements, List.lookup]
  refine ⟨?_, ?_, le_max_left 0 _⟩
  · rw [hl, daysOverdueStr_spec]
  · intro h
    rw [hl, daysOverdueStr_future inv.due_date now h]

theorem C7_witness :
    (replacements c6Invoice c6Client 1736467200000).lookup "{days_overdue}" =
      some (toString (max 0 (Int.fdiv ((1736467200000 : Int) - c6Invoice.due_date) 86400000))) ∧
    (replacements c6Invoice c6Client 0).lookup "{days_overdue}" = some "0" ∧
    (0 : Int) ≤ max 0 (Int.fdiv ((1736467200000 : Int) - c6Invoice.due_date) 86400000) := by
  have h1 := C7_days_overdue_token c6Invoice c6Client 1736467200000
  have h2 := C7_days_overdue_token c6Invoice c6Client 0
  exact ⟨h1.1, h2.2.1 (by decide), h1.2.2⟩

end InvoiceNudger

namespace InvoiceNudger

/-- C8 counterexample: the renderer also fails when only the template is
    absent while the invoice and its client are both present, so "fails iff
    invoice or client absent" does not hold. -/
theorem C8_counterexample :
    isErr (formatEmailTemplate none (some wInvOpen) 0) = true ∧
    (some wInvOpen ≠ (none : Option Invoice)) ∧
    wInvOpen.client ≠ none := by
  decide

/-- C8 (amended): the renderer fails with the missing-data error iff the
    template, the invoice, or the invoice's client is absent; a due, payable
    reminder whose rendering fails is left pending and unchanged, gets no
    transport call, and the rest of the batch is still processed (any other
    due reminder of a paid invoice still ends cancelled). -/
theorem C8_missing_context (t : Option MessageTemplate) (i : Option Invoice) (now0 : Int)
    (env : Env) (now : Int) (db : List Reminder) (r : Reminder) (inv : Invoice) (e : String)
    (hnd : (db.map (fun x => x.id)).Nodup)
    (hmem : r ∈ dueFilter now db)
    (hinv : r.invoice = some inv) (hp : inv.status ≠ InvoiceStatus.paid)
    (hfmt : formatEmailTemplate r.template (some inv) now = Except.error e) :
    (isErr (formatEmailTemplate t i now0) = true ↔
      (t = none ∨ i = none ∨ i.bind (fun x => x.client) = none)) ∧
    getById (processScheduledReminders env now none db).reminders r.id = some r ∧
    (processScheduledReminders env now none db).emails.filter
      (fun m => decide (m.rid = r.id)) = [] ∧
    (∀ r2 inv2, r2 ∈ dueFilter now db → r2.invoice = some inv2 →
      inv2.status = InvoiceStatus.paid →
      getById (processScheduledReminders env now none db).reminders r2.id =
        some { r2 with status := ReminderStatus.cancelled }) := by
  obtain ⟨h1, h2⟩ := fmtError_due_final env now db r inv e hnd hmem hinv hp hfmt
  refine ⟨?_, h1, h2, ?_⟩
  · cases t with
    | none => simp [formatEmailTemplate, isErr]
    | some tv =>
      cases i with
      | none => simp [formatEmailTemplate, isErr]
      | some iv =>
        cases hc : iv.client with
        | none => simp [formatEmailTemplate, isErr, hc]
        | some cv => simp [formatEmailTemplate, isErr, hc]
  · intro r2 inv2 hmem2 hinv2 hpaid2
    exact (paid_due_final env now db r2 inv2 hnd hmem2 hinv2 hpaid2).1

theorem C8_witness :
    (isErr (formatEmailTemplate none (some wInvOpen) 0) = true ↔
      ((none : Option MessageTemplate) = none ∨ (some wInvOpen : Option Invoice) = none ∨
        (some wInvOpen).bind (fun x => x.client) = none)) ∧
    getById (processScheduledReminders wEnvOk 0 none [wRemNoTemplate, wRemPaid]).reminders
        wRemNoTemplate.id = some wRemNoTemplate ∧
    (processScheduledReminders wEnvOk 0 none [wRemNoTemplate, wRemPaid]).emails.filter
      (fun m => decide (m.rid = wRemNoTemplate.id)) = [] ∧
    getById (processScheduledReminders wEnvOk 0 none [wRemNoTemplate, wRemPaid]).reminders
        wRemPaid.id = some { wRemPaid with status := ReminderStatus.cancelled } := by
  have h := C8_missing_context none (some wInvOpen) 0 wEnvOk 0 [wRemNoTemplate, wRemPaid]
    wRemNoTemplate wInvOpen "Missing required data for email template"
    (by decide) (by decide) (by decide) (by decide) rfl
  exact ⟨h.1, h.2.1, h.2.2.1, h.2.2.2 wRemPaid wInvPaid (by decide) (by decide) (by decide)⟩

/-- C9: every reminder-table update issued by an invocation targets the id of
    a reminder that was pending and due at the invocation's start, and the
    row seen for any reminder that was not due is exactly the row it had
    before the invocation. -/
theorem C9_untouched_non_due (env : Env) (now : Int) (db : List Reminder)
    (hnd : (db.map (fun x => x.id)).Nodup) :
    (∀ u ∈ (processScheduledReminders env now none db).updates,
       ∃ x ∈ dueFilter now db, u = x.id) ∧
    (∀ r ∈ db, isDue now r = false →
       getById (processScheduledReminders env now none db).reminders r.id =
         getById db r.id) := by
  constructor
  · intro u hu
    have hu2 : u ∈ ((dueFilter now db).foldl (processReminder env now) (initState db)).updates := by
      simpa [processScheduledReminders] using hu
    rcases foldl_updates_sub env now (dueFilter now db) (initState db) u hu2 with h | h
    · simp [initState] at h
    · exact h
  · intro r hr hnotdue
    have hne : ∀ x ∈ dueFilter now db, x.id ≠ r.id := by
      intro x hx h
      have hxdb := List.mem_of_mem_filter hx
      have hxdue := List.of_mem_filter hx
      have hxr : x = r := List.inj_on_of_nodup_map hnd hxdb hr h
      rw [hxr, hnotdue] at hxdue
      cases hxdue
    have h := (foldl_frame_ne env now (dueFilter now db) (initState db) r.id hne).1
    simpa [processScheduledReminders, initState] using h

theorem C9_witness :
    (∀ u ∈ (processScheduledReminders wEnvOk 0 none [wRemOpen, wRemLate]).updates,
       ∃ x ∈ dueFilter 0 [wRemOpen, wRemLate], u = x.id) ∧
    getById (processScheduledReminders wEnvOk 0 none [wRemOpen, wRemLate]).reminders
        wRemLate.id = getById [wRemOpen, wRemLate] wRemLate.id := by
  have h := C9_untouched_non_due wEnvOk 0 [wRemOpen, wRemLate] (by decide)
  exact ⟨h.1, h.2 wRemLate (by decide) (by decide)⟩

/-- C10: for any template and invoice with a client present, evaluated at
    the same now, the processor's renderer and the scheduler's preview agree:
    same subject, and the processor's body is the preview's body with each
    newline replaced by the HTML line break (the preview substitutes the
    same placeholders but performs no line-break conversion). -/
theorem C10_preview_agrees_with_renderer (t : MessageTemplate) (inv : Invoice) (c : Client)
    (now : Int) (hc : inv.client = some c) :
    formatEmailTemplate (some t) (some inv) now =
      Except.ok
        { subject := (getFormattedPreview t (some inv) now).subject,
          body := replaceAll (getFormattedPreview t (some inv) now).body "\n" "<br />" } := by
  simp [formatEmailTemplate, getFormattedPreview, hc, replacements, previewReplacements]

theorem C10_witness :
    formatEmailTemplate (some wTemplate) (some wInvOpen) 0 =
      Except.ok
        { subject := (getFormattedPreview wTemplate (some wInvOpen) 0).subject,
          body := replaceAll (getFormattedPreview wTemplate (some wInvOpen) 0).body
            "\n" "<br />" } :=
  C10_preview_agrees_with_renderer wTemplate wInvOpen wClient 0 (by decide)

end InvoiceNudger
